import Mathlib

/-!
Verification development for the QEMU K230 board model
(`hw/riscv/k230.c`, `include/hw/riscv/k230.h`).

The development shallowly embeds the board-composition and boot-sequencing
code: the address-space catalog (`k230_memmap`), the interrupt constants,
the device-tree synthesizer (`create_fdt`), the SoC realize wiring
(`k230_soc_realize`), the machine init sequence (`k230_machine_init`),
and the semantics of the ten-instruction reset-vector stub placed in the
boot ROM.  All machine integers are modelled as `Nat` with explicit
`% 2 ^ 32` / `% 2 ^ 64` where the C code truncates.
-/

namespace K230

/-- One entry of the address-space catalog: base address and size,
both 64-bit in the source (`MemMapEntry`). -/
structure MemMapEntry where
  base : Nat
  size : Nat
deriving DecidableEq, Repr

/-- The device tags used by the designated initializers of `k230_memmap`
in `k230.c` (constructor names follow the `K230_DEV_*` enumerators; the
two that start with a digit are spelled out: `TwoP5D` for `2P5D` and
`ThreeD_ENGINE` for `3D_ENGINE`). -/
inductive K230Dev where
  | DDRC | KPU_L2_CACHE | SRAM | KPU_CFG | FFT | AI_2D_ENGINE
  | GSDMA | DMA | DECOMP_GZIP | NON_AI_2D | ISP | DEWARP | RX_CSI
  | H264 | TwoP5D | VO | VO_CFG | ThreeD_ENGINE | PMU | RTC | CMU
  | RMU | BOOT | PWR | MAILBOX | IOMUX | TIMER | WDT0 | WDT1 | TS
  | HDI | STC | BOOTROM | SECURITY | UART0 | UART1 | UART2 | UART3
  | UART4 | I2C0 | I2C1 | I2C2 | I2C3 | I2C4 | PWM | GPIO0 | GPIO1
  | ADC | CODEC | I2S | USB0 | USB1 | SD0 | SD1 | QSPI0 | QSPI1
  | SPI | HI_SYS_CFG | DDRC_CFG | FLASH | PLIC | CLINT
deriving DecidableEq, Repr

open K230Dev in
/-- The static address-space catalog `k230_memmap` from `k230.c`,
entry for entry. -/
def k230_memmap : K230Dev → MemMapEntry
  | DDRC          => ⟨0x00000000, 0x80000000⟩
  | KPU_L2_CACHE  => ⟨0x80000000, 0x00200000⟩
  | SRAM          => ⟨0x80200000, 0x00200000⟩
  | KPU_CFG       => ⟨0x80400000, 0x00000800⟩
  | FFT           => ⟨0x80400800, 0x00000400⟩
  | AI_2D_ENGINE  => ⟨0x80400C00, 0x00000800⟩
  | GSDMA         => ⟨0x80800000, 0x00004000⟩
  | DMA           => ⟨0x80804000, 0x00004000⟩
  | DECOMP_GZIP   => ⟨0x80808000, 0x00004000⟩
  | NON_AI_2D     => ⟨0x8080C000, 0x00004000⟩
  | ISP           => ⟨0x90000000, 0x00008000⟩
  | DEWARP        => ⟨0x90008000, 0x00001000⟩
  | RX_CSI        => ⟨0x90009000, 0x00002000⟩
  | H264          => ⟨0x90400000, 0x00010000⟩
  | TwoP5D        => ⟨0x90800000, 0x00040000⟩
  | VO            => ⟨0x90840000, 0x00010000⟩
  | VO_CFG        => ⟨0x90850000, 0x00001000⟩
  | ThreeD_ENGINE => ⟨0x90A00000, 0x00000800⟩
  | PMU           => ⟨0x91000000, 0x00000C00⟩
  | RTC           => ⟨0x91000C00, 0x00000400⟩
  | CMU           => ⟨0x91100000, 0x00001000⟩
  | RMU           => ⟨0x91101000, 0x00001000⟩
  | BOOT          => ⟨0x91102000, 0x00001000⟩
  | PWR           => ⟨0x91103000, 0x00001000⟩
  | MAILBOX       => ⟨0x91104000, 0x00001000⟩
  | IOMUX         => ⟨0x91105000, 0x00000800⟩
  | TIMER         => ⟨0x91105800, 0x00000800⟩
  | WDT0          => ⟨0x91106000, 0x00000800⟩
  | WDT1          => ⟨0x91106800, 0x00000800⟩
  | TS            => ⟨0x91107000, 0x00000800⟩
  | HDI           => ⟨0x91107800, 0x00000800⟩
  | STC           => ⟨0x91108000, 0x00000800⟩
  | BOOTROM       => ⟨0x91200000, 0x00010000⟩
  | SECURITY      => ⟨0x91210000, 0x00008000⟩
  | UART0         => ⟨0x91400000, 0x00001000⟩
  | UART1         => ⟨0x91401000, 0x00001000⟩
  | UART2         => ⟨0x91402000, 0x00001000⟩
  | UART3         => ⟨0x91403000, 0x00001000⟩
  | UART4         => ⟨0x91404000, 0x00001000⟩
  | I2C0          => ⟨0x91405000, 0x00001000⟩
  | I2C1          => ⟨0x91406000, 0x00001000⟩
  | I2C2          => ⟨0x91407000, 0x00001000⟩
  | I2C3          => ⟨0x91408000, 0x00001000⟩
  | I2C4          => ⟨0x91409000, 0x00001000⟩
  | PWM           => ⟨0x9140A000, 0x00001000⟩
  | GPIO0         => ⟨0x9140B000, 0x00001000⟩
  | GPIO1         => ⟨0x9140C000, 0x00001000⟩
  | ADC           => ⟨0x9140D000, 0x00001000⟩
  | CODEC         => ⟨0x9140E000, 0x00001000⟩
  | I2S           => ⟨0x9140F000, 0x00001000⟩
  | USB0          => ⟨0x91500000, 0x00010000⟩
  | USB1          => ⟨0x91540000, 0x00010000⟩
  | SD0           => ⟨0x91580000, 0x00001000⟩
  | SD1           => ⟨0x91581000, 0x00001000⟩
  | QSPI0         => ⟨0x91582000, 0x00001000⟩
  | QSPI1         => ⟨0x91583000, 0x00001000⟩
  | SPI           => ⟨0x91584000, 0x00001000⟩
  | HI_SYS_CFG    => ⟨0x91585000, 0x00000400⟩
  | DDRC_CFG      => ⟨0x98000000, 0x02000000⟩
  | FLASH         => ⟨0xC0000000, 0x08000000⟩
  | PLIC          => ⟨0xF0000000, 0x00400000⟩
  | CLINT         => ⟨0xF0400000, 0x00400000⟩

/-- The consecutive enumerator arithmetic `K230_DEV_UART0 + i` used by
the UART loops in `create_fdt` and `k230_soc_realize`. -/
def uartDev : Nat → K230Dev
  | 0 => .UART0
  | 1 => .UART1
  | 2 => .UART2
  | 3 => .UART3
  | _ => .UART4

/-- Interrupt source constant `K230_UART0_IRQ` from `k230.h`. -/
def K230_UART0_IRQ : Nat := 0

/-- Interrupt source constant `K230_GPIO0_IRQ0` from `k230.h`. -/
def K230_GPIO0_IRQ0 : Nat := 16

/-- The UART count `K230_UART_IRQS` from `k230.h`. -/
def K230_UART_IRQS : Nat := 5

/-- The per-bank GPIO line count `K230_GPIO_IRQS` from `k230.h`. -/
def K230_GPIO_IRQS : Nat := 64

/-- The I2C count `K230_I2C_IRQS`: the loop bound used for the five
consecutive I2C windows in `k230_soc_realize`. -/
def K230_I2C_IRQS : Nat := 5

/-- PLIC source count `K230_PLIC_NUM_SOURCES` from `k230.h`. -/
def K230_PLIC_NUM_SOURCES : Nat := 208

/-- PLIC priority-level count `K230_PLIC_NUM_PRIORITIES` from `k230.h`. -/
def K230_PLIC_NUM_PRIORITIES : Nat := 7

/-- PLIC register-layout constants from `k230.h`. -/
def K230_PLIC_PRIORITY_BASE : Nat := 0x00

/-- PLIC pending-array base offset from `k230.h`. -/
def K230_PLIC_PENDING_BASE : Nat := 0x1000

/-- PLIC enable-array base offset from `k230.h`. -/
def K230_PLIC_ENABLE_BASE : Nat := 0x2000

/-- PLIC enable-array stride from `k230.h`. -/
def K230_PLIC_ENABLE_STRIDE : Nat := 0x80

/-- PLIC context base offset from `k230.h`. -/
def K230_PLIC_CONTEXT_BASE : Nat := 0x200000

/-- PLIC context stride from `k230.h`. -/
def K230_PLIC_CONTEXT_STRIDE : Nat := 0x1000

/-- Modelled from the spec: the base hart id of the first core
(`CPU0_BASE_HARTID`, a compile-time constant of the repository not under
`src/`; §4.2 fixes core 0 to base A and core 1 to A + 1 with hart ids
starting at 0). -/
def CPU0_BASE_HARTID : Nat := 0

/-- Modelled from the spec: `CPU1_BASE_HARTID = CPU0_BASE_HARTID + 1`
(§4.2: core 1 gets base A + 1). -/
def CPU1_BASE_HARTID : Nat := CPU0_BASE_HARTID + 1

/-- RISC-V machine-mode software interrupt number `IRQ_M_SOFT`
(external platform constant from QEMU's `cpu_bits.h`). -/
def IRQ_M_SOFT : Nat := 3

/-- RISC-V machine-mode timer interrupt number `IRQ_M_TIMER`
(external platform constant from QEMU's `cpu_bits.h`). -/
def IRQ_M_TIMER : Nat := 7

/-- RISC-V machine-mode external interrupt number `IRQ_M_EXT`
(external platform constant from QEMU's `cpu_bits.h`). -/
def IRQ_M_EXT : Nat := 11

/-- Modelled from the spec: the fixed 50 MHz clock constant
`K230_FIX50M_FREQ` (a compile-time constant of the repository not under
`src/`; only its fixedness matters to the claims, not its value). -/
def K230_FIX50M_FREQ : Nat := 50000000

/-- Modelled from the spec: the RTC clock constant `K230_RTCCLK_FREQ`
(compile-time constant of the repository not under `src/`). -/
def K230_RTCCLK_FREQ : Nat := 32768

/-- Modelled from the spec: the timebase constant `K230_TIMEBASE_FREQ`
(compile-time constant of the repository not under `src/`; §9 notes it
is marked provisional in the source). -/
def K230_TIMEBASE_FREQ : Nat := 27000000

/-- Modelled from the spec: the CPU clock constant `K230_CPUCLK_FREQ`
(compile-time constant of the repository not under `src/`). -/
def K230_CPUCLK_FREQ : Nat := 1600000000

/-- The parameters `k230_soc_realize` passes to `sifive_plic_create`. -/
structure PlicParams where
  base : Nat
  numHarts : Nat
  hartidBase : Nat
  numSources : Nat
  numPriorities : Nat
  priorityBase : Nat
  pendingBase : Nat
  enableBase : Nat
  enableStride : Nat
  contextBase : Nat
  contextStride : Nat
  apertureSize : Nat
deriving DecidableEq, Repr

/-- The concrete `sifive_plic_create` call in `k230_soc_realize`, as a
function of the hart count. -/
def k230_plic_params (numHarts : Nat) : PlicParams :=
  { base := (k230_memmap .PLIC).base
    numHarts := numHarts
    hartidBase := CPU0_BASE_HARTID
    numSources := K230_PLIC_NUM_SOURCES
    numPriorities := K230_PLIC_NUM_PRIORITIES
    priorityBase := K230_PLIC_PRIORITY_BASE
    pendingBase := K230_PLIC_PENDING_BASE
    enableBase := K230_PLIC_ENABLE_BASE
    enableStride := K230_PLIC_ENABLE_STRIDE
    contextBase := K230_PLIC_CONTEXT_BASE
    contextStride := K230_PLIC_CONTEXT_STRIDE
    apertureSize := (k230_memmap .PLIC).size }

/-- The devices whose interrupt outputs `k230_soc_realize` wires to PLIC
inputs. -/
inductive IrqDev where
  | uart (i : Nat)
  | gpioBank0
  | gpioBank1
deriving DecidableEq, Repr

/-- One wiring action: device output pin `devPin` is connected to PLIC
source number `plicSource` (`qdev_get_gpio_in(DEVICE(s->plic), n)`). -/
structure IrqConn where
  dev : IrqDev
  devPin : Nat
  plicSource : Nat
deriving DecidableEq, Repr

/-- The UART wiring loop of `k230_soc_realize`: `serial_mm_init` for port
`i` receives the PLIC input `K230_UART0_IRQ + i`. -/
def uartIrqConns : List IrqConn :=
  (List.range K230_UART_IRQS).map fun i =>
    ⟨.uart i, 0, K230_UART0_IRQ + i⟩

/-- The GPIO wiring loop of `k230_soc_realize`: for each line `i`, bank 0
output `i` goes to PLIC source `K230_GPIO0_IRQ0 + i` and bank 1 output
`i` goes to PLIC source `K230_GPIO0_IRQ0 + K230_GPIO_IRQS + i`. -/
def gpioIrqConns : List IrqConn :=
  (List.range K230_GPIO_IRQS).flatMap fun i =>
    [⟨.gpioBank0, i, K230_GPIO0_IRQ0 + i⟩,
     ⟨.gpioBank1, i, K230_GPIO0_IRQ0 + K230_GPIO_IRQS + i⟩]

/-- All PLIC source connections made by `k230_soc_realize`, in program
order (UART loop first, then the GPIO loop). -/
def k230_soc_realize_irq_conns : List IrqConn :=
  uartIrqConns ++ gpioIrqConns

/-- The PLIC sources a given device claims in the wiring list. -/
def sourcesOf (d : IrqDev) : List Nat :=
  k230_soc_realize_irq_conns.filterMap fun c =>
    if c.dev = d then some c.plicSource else none

end K230

namespace K230

/-- Device-tree node paths. The source builds them with
`g_strdup_printf` patterns; each constructor mirrors one pattern, with
the printf argument as a field (`memory` carries the `%lx` base, `cpu`
and `cpuIntc` the cpu index, `clint`/`plic`/`serial` the `%lx` base). -/
inductive NodePath where
  | root
  | soc
  | def50mhz
  | rtcclk
  | memory (base : Nat)
  | cpus
  | cpu (i : Nat)
  | cpuIntc (i : Nat)
  | clint (base : Nat)
  | plic (base : Nat)
  | serial (base : Nat)
  | aliases
  | chosen
deriving DecidableEq, Repr

/-- A property value attached to a node: a NUL-terminated string, one
32-bit big-endian cell, an array of cells, an array of strings, or an
empty (boolean) property. -/
inductive PropVal where
  | str (s : String)
  | cell (v : Nat)
  | cells (vs : List Nat)
  | strs (ss : List String)
  | empty
deriving DecidableEq, Repr

/-- One emission step of the synthesizer: add a subnode, or set a
property on a node.  A finished document is the list of steps in
emission order. -/
inductive FdtOp where
  | addNode (p : NodePath)
  | setProp (p : NodePath) (name : String) (v : PropVal)
deriving DecidableEq, Repr

/-- A synthesized document: the emission steps in order. -/
abbrev Fdt := List FdtOp

/-- The `qemu_fdt_setprop_cell` helper: the value is a `uint32_t`. -/
def setCell (p : NodePath) (name : String) (v : Nat) : FdtOp :=
  .setProp p name (.cell (v % 2 ^ 32))

/-- The `qemu_fdt_setprop_cells` macro: every vararg is stored as a
`uint32_t` cell. -/
def setCells (p : NodePath) (name : String) (vs : List Nat) : FdtOp :=
  .setProp p name (.cells (vs.map (· % 2 ^ 32)))

/-- The `qemu_fdt_get_phandle` read-back: the value of the last
`"phandle"` cell property set on the node (0 when none was set). -/
def fdtGetPhandle (f : Fdt) (p : NodePath) : Nat :=
  (f.filterMap fun op =>
    match op with
    | .setProp q name (.cell v) =>
        if q = p ∧ name = "phandle" then some v else none
    | _ => none).getLast?.getD 0

/-- The last value set for property `name` on node `p` (properties are
key-value: a later set overwrites an earlier one). -/
def getProp (f : Fdt) (p : NodePath) (name : String) : Option PropVal :=
  (f.filterMap fun op =>
    match op with
    | .setProp q n v => if q = p ∧ n = name then some v else none
    | _ => none).getLast?

/-- The root properties set at the top of `create_fdt`. -/
def rootOps : List FdtOp :=
  [.setProp .root "model" (.str "kendryte k230 canmv"),
   .setProp .root "compatible" (.str "kendryte,k230_canmv"),
   setCell .root "#address-cells" 0x2,
   setCell .root "#size-cells" 0x2]

/-- The `/soc` container node of `create_fdt`. -/
def socOps : List FdtOp :=
  [.addNode .soc,
   .setProp .soc "ranges" .empty,
   .setProp .soc "compatible" (.str "simple-bus"),
   setCell .soc "#size-cells" 0x2,
   setCell .soc "#address-cells" 0x2]

/-- The `/def_50mhz` fixed-clock node; `ph` is the fresh phandle the
source draws with `phandle++`. -/
def def50mhzOps (ph : Nat) : List FdtOp :=
  [.addNode .def50mhz,
   setCell .def50mhz "phandle" ph,
   .setProp .def50mhz "clock-output-names" (.str "fix-50mhz"),
   setCell .def50mhz "clock-frequency" K230_FIX50M_FREQ,
   .setProp .def50mhz "compatible" (.str "fixed-clock"),
   setCell .def50mhz "#clock-cells" 0x0]

/-- The `/rtcclk` fixed-clock node; `ph` is the fresh phandle. -/
def rtcclkOps (ph : Nat) : List FdtOp :=
  [.addNode .rtcclk,
   setCell .rtcclk "phandle" ph,
   .setProp .rtcclk "clock-output-names" (.str "rtcclk"),
   setCell .rtcclk "clock-frequency" K230_RTCCLK_FREQ,
   .setProp .rtcclk "compatible" (.str "fixed-clock"),
   setCell .rtcclk "#clock-cells" 0x0]

/-- The `/memory@...` node: `reg` is the DDR base and the configured
`ram_size` (`mem_size` in `create_fdt` is the full 64-bit
`ms->ram_size`), each 64-bit value split as high word then low word. -/
def memoryOps (ram : Nat) : List FdtOp :=
  [.addNode (.memory (k230_memmap .DDRC).base),
   .setProp (.memory (k230_memmap .DDRC).base) "device_type" (.str "memory"),
   setCells (.memory (k230_memmap .DDRC).base) "reg"
     [(k230_memmap .DDRC).base >>> 32, (k230_memmap .DDRC).base,
      ram >>> 32, ram]]

/-- The `/cpus` container node. -/
def cpusOps : List FdtOp :=
  [.addNode .cpus,
   setCell .cpus "#address-cells" 0x1,
   setCell .cpus "#size-cells" 0x0,
   setCell .cpus "timebase-frequency" K230_TIMEBASE_FREQ]

/-- Modelled from the spec: the external platform primitive
`riscv_isa_write_fdt` (QEMU `target/riscv`, not under `src/`) that
writes ISA description string properties derived from the given hart;
it assigns no phandle and emits no cross-reference. -/
def riscv_isa_write_fdt (p : NodePath) (cpuType : String) : List FdtOp :=
  [.setProp p "riscv,isa-string" (.str cpuType)]

/-- One iteration of the per-cpu loop of `create_fdt`: the
`/cpus/cpu@i` node and its nested interrupt controller; `ph` is the
fresh `cpu_phandle` the source draws with `phandle++`.  The source's
`if (cpu == 0)` branch targets `s->soc.c908_cpu` and the else branch
`s->soc.c908v_cpu`; both set the same literal properties. -/
def cpuOps (cpu ph : Nat) : List FdtOp :=
  [.addNode (.cpu cpu),
   .setProp (.cpu cpu) "compatible" (.str "riscv")] ++
  (if cpu = 0 then
    [.setProp (.cpu cpu) "riscv,isa" (.str "rv64imafdcvsu"),
     .setProp (.cpu cpu) "mmu-type" (.str "riscv,sv39"),
     setCell (.cpu cpu) "clock-frequency" K230_CPUCLK_FREQ] ++
    riscv_isa_write_fdt (.cpu cpu) "thead-c908"
  else
    [.setProp (.cpu cpu) "riscv,isa" (.str "rv64imafdcvsu"),
     .setProp (.cpu cpu) "mmu-type" (.str "riscv,sv39"),
     setCell (.cpu cpu) "clock-frequency" K230_CPUCLK_FREQ] ++
    riscv_isa_write_fdt (.cpu cpu) "thead-c908v") ++
  [.setProp (.cpu cpu) "status" (.str "okay"),
   setCell (.cpu cpu) "reg" cpu,
   .setProp (.cpu cpu) "device_type" (.str "cpu"),
   .addNode (.cpuIntc cpu),
   setCell (.cpuIntc cpu) "phandle" ph,
   .setProp (.cpuIntc cpu) "compatible" (.str "riscv,cpu-intc"),
   .setProp (.cpuIntc cpu) "interrupt-controller" .empty,
   setCell (.cpuIntc cpu) "#interrupt-cells" 1]

/-- The `/soc/clint@...` node; `cellsArr` is the pre-computed
`interrupts-extended` cell array. -/
def clintOps (cellsArr : List Nat) : List FdtOp :=
  [.addNode (.clint (k230_memmap .CLINT).base),
   .setProp (.clint (k230_memmap .CLINT).base) "compatible"
     (.strs ["riscv,clint0"]),
   setCells (.clint (k230_memmap .CLINT).base) "reg"
     [0x0, (k230_memmap .CLINT).base, 0x0, (k230_memmap .CLINT).size],
   .setProp (.clint (k230_memmap .CLINT).base) "interrupts-extended"
     (.cells cellsArr)]

/-- The `/soc/interrupt-controller@...` (PLIC) node; `ph` is the fresh
`plic_phandle` and `cellsArr` the `interrupts-extended` cell array. -/
def plicOps (ph : Nat) (cellsArr : List Nat) : List FdtOp :=
  [.addNode (.plic (k230_memmap .PLIC).base),
   setCell (.plic (k230_memmap .PLIC).base) "#interrupt-cells" 1,
   .setProp (.plic (k230_memmap .PLIC).base) "compatible"
     (.strs ["riscv,plic0"]),
   .setProp (.plic (k230_memmap .PLIC).base) "interrupt-controller" .empty,
   .setProp (.plic (k230_memmap .PLIC).base) "interrupts-extended"
     (.cells cellsArr),
   setCells (.plic (k230_memmap .PLIC).base) "reg"
     [0x0, (k230_memmap .PLIC).base, 0x0, (k230_memmap .PLIC).size],
   setCell (.plic (k230_memmap .PLIC).base) "riscv,ndev"
     (K230_PLIC_NUM_SOURCES - 1),
   setCell (.plic (k230_memmap .PLIC).base) "phandle" ph]

/-- One iteration of the serial loop of `create_fdt`: the
`/soc/serial@...` node for UART `i`, referencing the 50 MHz clock
phandle and the PLIC phandle. -/
def serialOps (i def50Ph plicPh : Nat) : List FdtOp :=
  [.addNode (.serial (k230_memmap (uartDev i)).base),
   .setProp (.serial (k230_memmap (uartDev i)).base) "compatible"
     (.str "snps,dw-apb-uart"),
   setCells (.serial (k230_memmap (uartDev i)).base) "reg"
     [0x0, (k230_memmap (uartDev i)).base, 0x0, 0x400],
   setCells (.serial (k230_memmap (uartDev i)).base) "clocks" [def50Ph],
   .setProp (.serial (k230_memmap (uartDev i)).base) "clock-names"
     (.str "baudclk"),
   setCell (.serial (k230_memmap (uartDev i)).base) "reg-shift" 2,
   setCell (.serial (k230_memmap (uartDev i)).base) "reg-io-width" 4,
   setCell (.serial (k230_memmap (uartDev i)).base) "interrupts"
     (K230_UART0_IRQ + i),
   setCell (.serial (k230_memmap (uartDev i)).base) "interrupt-parent"
     plicPh]

/-- The `/aliases` node. -/
def aliasOps : List FdtOp :=
  [.addNode .aliases,
   .setProp .aliases "uart0" (.str "/soc/serial@91400000")]

/-- The `/chosen` node. -/
def chosenOps : List FdtOp :=
  [.addNode .chosen,
   .setProp .chosen "bootargs"
     (.str "console=ttyS0,115200n8 debug loglevel=7"),
   .setProp .chosen "stdout-path" (.str "uart0:115200n8")]

/-- The body of `create_fdt` after its cpu-count guard, emitting the
document for `nCpus` processors and the configured RAM size `ram`.
The phandle counter of the source starts at 1 and is post-incremented:
`def_50mhz_phandle = 1`, `rtcclk_phandle = 2`, `cpu_phandle = 3 + cpu`
in the loop, and `plic_phandle = 3 + nCpus` after the loop.  The
`interrupts-extended` arrays are built by reading each cpu
interrupt-controller phandle back from the document, exactly as the
source does with `qemu_fdt_get_phandle`. -/
def createFdtBody (nCpus ram : Nat) : Fdt :=
  let def_50mhz_phandle := 1
  let rtcclk_phandle := 2
  let ops2 :=
    rootOps ++ socOps ++ def50mhzOps def_50mhz_phandle ++
    rtcclkOps rtcclk_phandle ++ memoryOps ram ++ cpusOps ++
    (List.range nCpus).flatMap (fun cpu => cpuOps cpu (3 + cpu))
  let clintCells :=
    (List.range nCpus).flatMap fun cpu =>
      let intc_phandle := fdtGetPhandle ops2 (.cpuIntc cpu)
      [intc_phandle, IRQ_M_SOFT, intc_phandle, IRQ_M_TIMER]
  let ops3 := ops2 ++ clintOps clintCells
  let plic_phandle := 3 + nCpus
  let plicCells :=
    (List.range nCpus).flatMap fun cpu =>
      let intc_phandle := fdtGetPhandle ops3 (.cpuIntc cpu)
      [intc_phandle, IRQ_M_EXT]
  let ops4 := ops3 ++ plicOps plic_phandle plicCells
  let plic_phandle2 := fdtGetPhandle ops4 (.plic (k230_memmap .PLIC).base)
  let ops5 := ops4 ++
    (List.range K230_UART_IRQS).flatMap
      (fun i => serialOps i def_50mhz_phandle plic_phandle2)
  ops5 ++ aliasOps ++ chosenOps

/-- `create_fdt`: validates the cpu count (more than 2 is a fatal
error, `error_report` + `exit(1)`), then emits the document. -/
def create_fdt (nCpus ram : Nat) : Except String Fdt :=
  if nCpus > 2 then
    .error "K230 supports at most 2 CPUs (1xC908 + 1xC908V)"
  else
    .ok (createFdtBody nCpus ram)

end K230

namespace K230

/-- The phandle assignments of a document, in emission order: every
`"phandle"` cell property, as (node, value). -/
def phandleAssignments (f : Fdt) : List (NodePath × Nat) :=
  f.filterMap fun op =>
    match op with
    | .setProp p name (.cell v) =>
        if name = "phandle" then some (p, v) else none
    | _ => none

/-- The phandle values an emission step references.  The referencing
properties of this document are `clocks` (a phandle cell list),
`interrupt-parent` (one phandle cell), and `interrupts-extended`
(alternating phandle/interrupt-number cells, so the even positions are
the referenced phandles). -/
def refValues (op : FdtOp) : List Nat :=
  match op with
  | .addNode _ => []
  | .setProp _ name v =>
      if name = "interrupt-parent" then
        match v with
        | .cell x => [x]
        | _ => []
      else if name = "clocks" then
        match v with
        | .cells xs => xs
        | .cell x => [x]
        | _ => []
      else if name = "interrupts-extended" then
        match v with
        | .cells xs => (xs.enum.filter fun q => q.1 % 2 = 0).map (·.2)
        | _ => []
      else []

/-- The phandle values an emission step assigns. -/
def assignedValues (op : FdtOp) : List Nat :=
  match op with
  | .setProp _ name (.cell v) => if name = "phandle" then [v] else []
  | _ => []

/-- Decides that every cross-reference in the document uses a phandle
assigned by a strictly earlier emission step; `assigned` accumulates
the values assigned so far. -/
def forwardResolved : Fdt → List Nat → Bool
  | [], _ => true
  | op :: rest, assigned =>
      (refValues op).all assigned.contains &&
      forwardResolved rest (assigned ++ assignedValues op)

/-- Big-endian byte encoding of one 32-bit cell (`cpu_to_be32`),
high byte first. -/
def be32 (v : Nat) : List Nat :=
  [v / 2 ^ 24 % 256, v / 2 ^ 16 % 256, v / 2 ^ 8 % 256, v % 256]

/-- Byte encoding of a NUL-terminated property string. -/
def strBytes (s : String) : List Nat :=
  s.data.map Char.toNat ++ [0]

/-- Byte encoding of a property value as it is stored in the flattened
document: strings NUL-terminated, cells as big-endian 32-bit words in
order, an empty property as zero bytes. -/
def propBytes : PropVal → List Nat
  | .str s => strBytes s
  | .cell v => be32 v
  | .cells vs => vs.flatMap be32
  | .strs ss => ss.flatMap strBytes
  | .empty => []

/-- Hexadecimal rendering of a node address, as `g_strdup_printf`'s
`%lx` produces it. -/
def hexStr (n : Nat) : String :=
  ⟨Nat.toDigits 16 n⟩

/-- The path string of a node, exactly as the source builds it. -/
def pathString : NodePath → String
  | .root => "/"
  | .soc => "/soc"
  | .def50mhz => "/def_50mhz"
  | .rtcclk => "/rtcclk"
  | .memory b => "/memory@" ++ hexStr b
  | .cpus => "/cpus"
  | .cpu i => "/cpus/cpu@" ++ toString i
  | .cpuIntc i => "/cpus/cpu@" ++ toString i ++ "/interrupt-controller"
  | .clint b => "/soc/clint@" ++ hexStr b
  | .plic b => "/soc/interrupt-controller@" ++ hexStr b
  | .serial b => "/soc/serial@" ++ hexStr b
  | .aliases => "/aliases"
  | .chosen => "/chosen"

/-- Byte encoding of one emission step. -/
def fdtOpBytes : FdtOp → List Nat
  | .addNode p => 1 :: strBytes (pathString p)
  | .setProp p name v =>
      2 :: strBytes (pathString p) ++ strBytes name ++ propBytes v

/-- Byte encoding of the whole document, in emission order. -/
def fdtBytes (f : Fdt) : List Nat :=
  f.flatMap fdtOpBytes

end K230

namespace K230

/-- The ten words of the mask-ROM reset vector `reset_vec[]` in
`k230_machine_init`, before the little-endian byte normalization. -/
def reset_vec : List Nat :=
  [0x00000297,  -- auipc  t0, 0x0
   0x02428293,  -- addi   t0, t0, 36
   0x30529073,  -- csrw   mtvec, t0
   0xf1402573,  -- csrr   a0, mhartid
   0x00050463,  -- beqz   a0, +8
   0x0000006f,  -- j      . (loop)
   0x0010029b,  -- addiw  t0, zero, 1
   0x01b29293,  -- slli   t0, t0, 0x1b
   0x00028067,  -- jr     t0
   0x0000006f]  -- j      . (trap)

/-- Little-endian byte encoding of one 32-bit word (`cpu_to_le32`),
low byte first. -/
def le32 (v : Nat) : List Nat :=
  [v % 256, v / 2 ^ 8 % 256, v / 2 ^ 16 % 256, v / 2 ^ 24 % 256]

/-- Opcode field of a RISC-V instruction word: bits 0-6. -/
def opcodeOf (w : Nat) : Nat := w % 2 ^ 7

/-- Destination register field: bits 7-11. -/
def rdOf (w : Nat) : Nat := w / 2 ^ 7 % 2 ^ 5

/-- funct3 field: bits 12-14. -/
def funct3Of (w : Nat) : Nat := w / 2 ^ 12 % 2 ^ 3

/-- First source register field: bits 15-19. -/
def rs1Of (w : Nat) : Nat := w / 2 ^ 15 % 2 ^ 5

/-- Second source register field: bits 20-24. -/
def rs2Of (w : Nat) : Nat := w / 2 ^ 20 % 2 ^ 5

/-- CSR address field of a SYSTEM instruction: bits 20-31. -/
def csrOf (w : Nat) : Nat := w / 2 ^ 20

/-- I-type immediate (bits 20-31), sign-extended to 64 bits; the added
constant is `2 ^ 64 - 2 ^ 12`. -/
def immI64 (w : Nat) : Nat :=
  if w / 2 ^ 20 < 2 ^ 11 then w / 2 ^ 20
  else w / 2 ^ 20 + 18446744073709547520

/-- B-type immediate, sign-extended to 64 bits; the added constant is
`2 ^ 64 - 2 ^ 13`. -/
def immB64 (w : Nat) : Nat :=
  let raw := w / 2 ^ 31 % 2 * 2 ^ 12 + w / 2 ^ 7 % 2 * 2 ^ 11 +
    w / 2 ^ 25 % 2 ^ 6 * 2 ^ 5 + w / 2 ^ 8 % 2 ^ 4 * 2
  if raw < 2 ^ 12 then raw else raw + 18446744073709543424

/-- J-type immediate, sign-extended to 64 bits; the added constant is
`2 ^ 64 - 2 ^ 21`. -/
def immJ64 (w : Nat) : Nat :=
  let raw := w / 2 ^ 31 % 2 * 2 ^ 20 + w / 2 ^ 12 % 2 ^ 8 * 2 ^ 12 +
    w / 2 ^ 20 % 2 * 2 ^ 11 + w / 2 ^ 21 % 2 ^ 10 * 2
  if raw < 2 ^ 20 then raw else raw + 18446744073707454464

/-- U-type immediate (upper 20 bits shifted into place), sign-extended
from 32 to 64 bits; the added constant is `2 ^ 64 - 2 ^ 32`. -/
def immU64 (w : Nat) : Nat :=
  if w / 2 ^ 12 * 2 ^ 12 < 2 ^ 31 then w / 2 ^ 12 * 2 ^ 12
  else w / 2 ^ 12 * 2 ^ 12 + 18446744069414584320

/-- Shift amount of a 64-bit shift-immediate instruction: bits 20-25. -/
def shamt6 (w : Nat) : Nat := w / 2 ^ 20 % 2 ^ 6

/-- Truncation of a value to 32 bits followed by sign extension to the
64-bit unsigned representation (the RV64 `W`-instruction result rule);
the added constant is `2 ^ 64 - 2 ^ 32`. -/
def sext32to64 (v : Nat) : Nat :=
  if v % 2 ^ 32 < 2 ^ 31 then v % 2 ^ 32
  else v % 2 ^ 32 + 18446744069414584320

/-- Hart state while executing the reset stub: program counter, the 32
integer registers, and the one CSR the stub writes (`mtvec`). -/
structure HartState where
  pc : Nat
  regs : List Nat
  mtvec : Nat
deriving DecidableEq, Repr

/-- Register read; `x0` and out-of-range indices read as 0. -/
def getReg (rs : List Nat) (i : Nat) : Nat := rs.getD i 0

/-- Register write; writes to `x0` are discarded. -/
def setReg (rs : List Nat) (i v : Nat) : List Nat :=
  if i = 0 then rs else rs.set i v

/-- CSR read: `mtvec` (0x305) and the read-only `mhartid` (0xF14). -/
def csrRead (s : HartState) (mhartid csr : Nat) : Nat :=
  if csr = 0x305 then s.mtvec else if csr = 0xF14 then mhartid else 0

/-- CSR write: only `mtvec` is writable state here. -/
def csrWrite (s : HartState) (csr v : Nat) : HartState :=
  if csr = 0x305 then { s with mtvec := v } else s

/-- Instruction fetch from a list of 4-byte words: `fetchWord rom off`
is the word at byte offset `off` (the word at index `off / 4` for
4-aligned offsets, nothing otherwise). -/
def fetchWord : List Nat → Nat → Option Nat
  | [], _ => none
  | w :: _, 0 => some w
  | _ :: ws, off + 4 => fetchWord ws off
  | _, _ => none

/-- One execution step of a hart whose `mhartid` is `m`, running the
word list `rom` placed at address `base`.  Covers exactly the
instruction forms occurring in `reset_vec`; a fetch outside the ROM
leaves the state unchanged (the stub has then left the boot ROM). -/
def stepStub (m : Nat) (rom : List Nat) (base : Nat) (s : HartState) :
    HartState :=
  if s.pc < base then s else
  match fetchWord rom (s.pc - base) with
  | none => s
  | some w =>
    let op := opcodeOf w
    if op = 0x17 then
      { s with regs := setReg s.regs (rdOf w) ((s.pc + immU64 w) % 2 ^ 64)
               pc := (s.pc + 4) % 2 ^ 64 }
    else if op = 0x13 ∧ funct3Of w = 0 then
      { s with regs := setReg s.regs (rdOf w)
                 ((getReg s.regs (rs1Of w) + immI64 w) % 2 ^ 64)
               pc := (s.pc + 4) % 2 ^ 64 }
    else if op = 0x13 ∧ funct3Of w = 1 then
      { s with regs := setReg s.regs (rdOf w)
                 (getReg s.regs (rs1Of w) * 2 ^ shamt6 w % 2 ^ 64)
               pc := (s.pc + 4) % 2 ^ 64 }
    else if op = 0x1B ∧ funct3Of w = 0 then
      { s with regs := setReg s.regs (rdOf w)
                 (sext32to64 (getReg s.regs (rs1Of w) + immI64 w))
               pc := (s.pc + 4) % 2 ^ 64 }
    else if op = 0x73 ∧ funct3Of w = 1 then
      let old := csrRead s m (csrOf w)
      let s1 := csrWrite s (csrOf w) (getReg s.regs (rs1Of w))
      { s1 with regs := setReg s.regs (rdOf w) old
                pc := (s.pc + 4) % 2 ^ 64 }
    else if op = 0x73 ∧ funct3Of w = 2 then
      let old := csrRead s m (csrOf w)
      let s1 := if rs1Of w = 0 then s
                else csrWrite s (csrOf w) (old ||| getReg s.regs (rs1Of w))
      { s1 with regs := setReg s.regs (rdOf w) old
                pc := (s.pc + 4) % 2 ^ 64 }
    else if op = 0x63 ∧ funct3Of w = 0 then
      if getReg s.regs (rs1Of w) = getReg s.regs (rs2Of w) then
        { s with pc := (s.pc + immB64 w) % 2 ^ 64 }
      else
        { s with pc := (s.pc + 4) % 2 ^ 64 }
    else if op = 0x6F then
      { s with regs := setReg s.regs (rdOf w) ((s.pc + 4) % 2 ^ 64)
               pc := (s.pc + immJ64 w) % 2 ^ 64 }
    else if op = 0x67 ∧ funct3Of w = 0 then
      { s with regs := setReg s.regs (rdOf w) ((s.pc + 4) % 2 ^ 64)
               pc := (getReg s.regs (rs1Of w) + immI64 w) % 2 ^ 64 / 2 * 2 }
    else s

/-- The reset state of a hart: the program counter is the reset vector
(`resetvec` is set to the boot-ROM base in `k230_soc_instance_init`),
all registers zero. -/
def resetState : HartState :=
  ⟨(k230_memmap .BOOTROM).base, List.replicate 32 0, 0⟩

/-- `n` execution steps of the reset stub for a hart with id `m`. -/
def runStub (m : Nat) : Nat → HartState
  | 0 => resetState
  | n + 1 => stepStub m reset_vec (k230_memmap .BOOTROM).base (runStub m n)

end K230

namespace K230

/-- The run-time configuration consumed by `k230_machine_init`:
requested cpu count (`smp.cpus`), requested RAM size (`ram_size`),
the optional pre-built document (`machine->dtb`: `some r` when a path
was given, where `r` is the load result, `none` on read failure), the
optional kernel (`machine->kernel_filename`: the value carried is the
`image_low_addr` the external loader reports), and what the external
firmware loader does (whether a default firmware image is found and
the end address it reports). -/
structure MachineConfig where
  smpCpus : Nat
  ramSize : Nat
  dtb : Option (Option Fdt)
  kernelFilename : Option Nat
  firmwarePresent : Bool
  firmwareEndAddr : Nat
deriving Repr

/-- Observable setup actions of the machine-init sequence, in program
order: child-object creation in `k230_soc_instance_init`, SoC realize,
RAM creation, the document load-or-build step, image loading, document
placement, reset-vector placement, and the firmware-info copy. -/
inductive Event where
  | initC908Harts
  | initC908vHarts
  | initGpioBank (bank : Nat)
  | realizeSoc
  | createRam (size : Nat)
  | loadDtb
  | buildFdt
  | loadFirmware
  | loadKernel (startAddrLowerBound : Nat)
  | placeFdt (addr : Nat)
  | placeResetVec (base : Nat) (bytes : List Nat)
  | copyFwInfo (kernelEntry : Nat)
deriving DecidableEq, Repr

/-- The child-object creations `k230_soc_instance_init` performs after
its cpu-count validation: the C908 hart array, the C908V hart array
only when two cpus were requested, and the two GPIO banks. -/
def socInitEvents (nCpus : Nat) : List Event :=
  [Event.initC908Harts] ++
  (if nCpus = 2 then [Event.initC908vHarts] else []) ++
  [Event.initGpioBank 0, Event.initGpioBank 1]

/-- `k230_soc_instance_init`: validates the cpu count as its first
action (more than 2 is `error_report` + `exit(1)`), then initializes
the child devices. -/
def k230_soc_instance_init (nCpus : Nat) : Except String (List Event) :=
  if nCpus > 2 then
    .error "K230 supports at most 2 CPUs (1xC908 + 1xC908V)"
  else
    .ok (socInitEvents nCpus)

/-- Modelled from the spec: the external helper
`riscv_compute_fdt_addr` (QEMU `hw/riscv/boot.c`, not under `src/`),
which places the document below the end of the DRAM window described
by the given base and size, 2 MiB-aligned (§4.5 stage 3: "compute a
load address ... as a function of DDR base, RAM size, and the
boot-info state").  Its internals are irrelevant to the claims; what
matters is which `mem_size` value the board passes in. -/
def riscv_compute_fdt_addr (dramBase memSize : Nat) (f : Fdt) : Nat :=
  (dramBase + memSize - (fdtBytes f).length) / 2 ^ 21 * 2 ^ 21

/-- Everything `k230_machine_init` leaves behind on success: the event
trace, the document in use and where it came from, the truncated
`uint32_t mem_size` local and the `mem_size` argument given to
`riscv_compute_fdt_addr`, the computed document load address, the
resolved `kernel_entry`, and the placed reset vector. -/
structure InitResult where
  events : List Event
  fdt : Fdt
  fdtFromDtbArg : Bool
  memSizeVar : Nat
  fdtAddrMemSizeArg : Nat
  fdtLoadAddr : Nat
  kernelEntry : Nat
  resetVecBase : Nat
  resetVecWords : List Nat
  resetVecBytes : List Nat
deriving Repr

/-- The outcome of a machine-init run: fatal termination
(`error_report` + `exit(1)`) together with the setup actions that had
already happened, or a completed setup. -/
inductive Outcome where
  | fatal (eventsBefore : List Event) (msg : String)
  | ok (r : InitResult)
deriving Repr

/-- The successful-setup result assembled by the tail of
`k230_machine_init` once the document step is done: `fdtEvents` is the
load-or-build event, `f` the document in use, `fromDtb` where it came
from.  `mem_size` is the truncated `uint32_t mem_size` local; it is
what `memory_region_init_ram` and `riscv_compute_fdt_addr` receive.
The firmware stage uses `riscv_default_firmware_name` +
`riscv_find_and_load_firmware` starting at the DDR base; the kernel
stage runs only when `kernel_filename` is set and yields
`kernel_entry = boot_info.image_low_addr` (0 otherwise). -/
def mkInitResult (cfg : MachineConfig) (fdtEvents : List Event)
    (f : Fdt) (fromDtb : Bool) : InitResult :=
  let mem_size := cfg.ramSize % 2 ^ 32
  let firmware_end_addr :=
    if cfg.firmwarePresent then cfg.firmwareEndAddr
    else (k230_memmap .DDRC).base
  let kernelStep :=
    match cfg.kernelFilename with
    | some imageLowAddr =>
        ([Event.loadKernel firmware_end_addr], imageLowAddr)
    | none => ([], 0)
  let fdt_load_addr :=
    riscv_compute_fdt_addr (k230_memmap .DDRC).base mem_size f
  let resetBytes := reset_vec.flatMap le32
  { events := socInitEvents cfg.smpCpus ++ [Event.realizeSoc] ++
      [Event.createRam mem_size] ++ fdtEvents ++ [Event.loadFirmware] ++
      kernelStep.1 ++ [Event.placeFdt fdt_load_addr] ++
      [Event.placeResetVec (k230_memmap .BOOTROM).base resetBytes,
       Event.copyFwInfo kernelStep.2]
    fdt := f
    fdtFromDtbArg := fromDtb
    memSizeVar := mem_size
    fdtAddrMemSizeArg := mem_size
    fdtLoadAddr := fdt_load_addr
    kernelEntry := kernelStep.2
    resetVecBase := (k230_memmap .BOOTROM).base
    resetVecWords := reset_vec
    resetVecBytes := resetBytes }

/-- `k230_machine_init`, step for step: SoC child init (which performs
the cpu-count validation before creating anything), SoC realize, RAM
creation with the truncated `uint32_t mem_size`, then either loading
the caller-supplied document (fatal if the load fails, no fallback) or
synthesizing one, firmware search-and-load, optional kernel load with
`kernel_entry = boot_info.image_low_addr` (0 when no kernel), document
placement at `riscv_compute_fdt_addr(DDR base, mem_size, ...)`, and
the reset-vector blob placed at the boot-ROM base in little-endian
byte order, followed by `riscv_rom_copy_firmware_info`. -/
def k230_machine_init (cfg : MachineConfig) : Outcome :=
  match k230_soc_instance_init cfg.smpCpus with
  | .error msg => .fatal [] msg
  | .ok socEvents =>
    let events2 := socEvents ++ [Event.realizeSoc] ++
      [Event.createRam (cfg.ramSize % 2 ^ 32)]
    match cfg.dtb with
    | some loadResult =>
        match loadResult with
        | none => .fatal events2 "load_device_tree() failed"
        | some f => .ok (mkInitResult cfg [Event.loadDtb] f true)
    | none =>
        match create_fdt cfg.smpCpus cfg.ramSize with
        | .error msg => .fatal events2 msg
        | .ok f => .ok (mkInitResult cfg [Event.buildFdt] f false)

/-- Modelled from the spec: the strict variant's RAM-size validation
(§4.5: "RAM size mismatched against the fixed hardware RAM size is
fatal in the simplified variant"; that variant's code is not under
`src/`).  The fixed hardware RAM size is the catalog's DDR size. -/
def strictRamSizeOk (ram : Nat) : Bool :=
  ram = (k230_memmap .DDRC).size

/-- Modelled from the spec (§9): the two RAM-size behaviors behind one
configuration flag.  `strict = true` applies the strict validation and
terminates setup on mismatch; `strict = false` is the flexible variant
implemented under `src/`, which accepts any size. -/
def k230_machine_init_variant (strict : Bool) (cfg : MachineConfig) :
    Outcome :=
  if strict ∧ strictRamSizeOk cfg.ramSize = false then
    .fatal [] "RAM size mismatch with fixed hardware RAM size"
  else
    k230_machine_init cfg

end K230

namespace K230

/-- Replaces the value of every property that neither assigns a
phandle nor references one by an empty value; the forward-resolution
check is invariant under this, which factors the payload cells (such
as the RAM-size-dependent memory `reg`) out of it. -/
def scrubOp (op : FdtOp) : FdtOp :=
  match op with
  | .addNode p => .addNode p
  | .setProp p name v =>
      if name = "phandle" ∨ name = "interrupt-parent" ∨
         name = "clocks" ∨ name = "interrupts-extended" then
        .setProp p name v
      else
        .setProp p name .empty

/-- Every interrupt source number advertised by an `interrupts` cell
property of the document. -/
def interruptsAdvertised (f : Fdt) : List Nat :=
  f.filterMap fun op =>
    match op with
    | .setProp _ name (.cell v) =>
        if name = "interrupts" then some v else none
    | _ => none

/-- A two-processor configuration with the default RAM size, no
pre-built document, no kernel, firmware found. -/
def cfgTwoCpu : MachineConfig :=
  { smpCpus := 2, ramSize := 0x80000000, dtb := none,
    kernelFilename := none, firmwarePresent := true,
    firmwareEndAddr := 0x200000 }

/-- Like `cfgTwoCpu` but with a kernel supplied by the user. -/
def cfgTwoCpuKernel : MachineConfig :=
  { smpCpus := 2, ramSize := 0x80000000, dtb := none,
    kernelFilename := some 0x200000, firmwarePresent := true,
    firmwareEndAddr := 0x200000 }

/-- A three-processor request, beyond the hardware maximum. -/
def cfgThreeCpu : MachineConfig :=
  { smpCpus := 3, ramSize := 0x80000000, dtb := none,
    kernelFilename := none, firmwarePresent := true,
    firmwareEndAddr := 0x200000 }

/-- A configuration whose caller-supplied document fails to load. -/
def cfgDtbFail : MachineConfig :=
  { smpCpus := 2, ramSize := 0x80000000, dtb := some none,
    kernelFilename := none, firmwarePresent := true,
    firmwareEndAddr := 0x200000 }

/-- A configuration with a (tiny) pre-built document that loads. -/
def cfgPrebuilt : MachineConfig :=
  { smpCpus := 2, ramSize := 0x80000000,
    dtb := some (some [FdtOp.addNode .chosen]),
    kernelFilename := none, firmwarePresent := true,
    firmwareEndAddr := 0x200000 }

/-- A one-processor configuration where no firmware image is found. -/
def cfgNoFirmware : MachineConfig :=
  { smpCpus := 1, ramSize := 0x80000000, dtb := none,
    kernelFilename := none, firmwarePresent := false,
    firmwareEndAddr := 0 }

/-- A configuration with 6 GiB of RAM, above the 32-bit range. -/
def cfgBigRam : MachineConfig :=
  { smpCpus := 2, ramSize := 0x180000000, dtb := none,
    kernelFilename := none, firmwarePresent := true,
    firmwareEndAddr := 0x200000 }

/-- A configuration whose RAM size differs from the fixed DDR size. -/
def cfgOddRam : MachineConfig :=
  { smpCpus := 2, ramSize := 0x40000000, dtb := none,
    kernelFilename := none, firmwarePresent := true,
    firmwareEndAddr := 0x200000 }

lemma memmap_BOOTROM_base : (k230_memmap K230Dev.BOOTROM).base = 0x91200000 :=
  rfl

lemma refValues_scrubOp (op : FdtOp) : refValues (scrubOp op) = refValues op := by
  cases op with
  | addNode p => rfl
  | setProp p name v =>
      by_cases hC : name = "phandle" ∨ name = "interrupt-parent" ∨
          name = "clocks" ∨ name = "interrupts-extended"
      · rw [scrubOp, if_pos hC]
      · rw [scrubOp, if_neg hC]
        push_neg at hC
        simp [refValues, hC.2.1, hC.2.2.1, hC.2.2.2]

lemma assignedValues_scrubOp (op : FdtOp) :
    assignedValues (scrubOp op) = assignedValues op := by
  cases op with
  | addNode p => rfl
  | setProp p name v =>
      by_cases hC : name = "phandle" ∨ name = "interrupt-parent" ∨
          name = "clocks" ∨ name = "interrupts-extended"
      · rw [scrubOp, if_pos hC]
      · rw [scrubOp, if_neg hC]
        push_neg at hC
        cases v <;> simp [assignedValues, hC.1]

lemma forwardResolved_scrub (f : Fdt) (a : List Nat) :
    forwardResolved (f.map scrubOp) a = forwardResolved f a := by
  induction f generalizing a with
  | nil => rfl
  | cons op rest ih =>
      simp only [List.map_cons, forwardResolved, refValues_scrubOp,
                 assignedValues_scrubOp, ih]

lemma machine_init_count_fatal (cfg : MachineConfig) (h : cfg.smpCpus > 2) :
    k230_machine_init cfg =
      .fatal [] "K230 supports at most 2 CPUs (1xC908 + 1xC908V)" := by
  unfold k230_machine_init k230_soc_instance_init
  rw [if_pos h]

lemma machine_init_build (cfg : MachineConfig) (h2 : cfg.smpCpus ≤ 2)
    (hd : cfg.dtb = none) :
    k230_machine_init cfg =
      .ok (mkInitResult cfg [Event.buildFdt]
            (createFdtBody cfg.smpCpus cfg.ramSize) false) := by
  unfold k230_machine_init k230_soc_instance_init create_fdt
  rw [if_neg (by omega), hd, if_neg (by omega)]

lemma machine_init_load (cfg : MachineConfig) (f : Fdt) (h2 : cfg.smpCpus ≤ 2)
    (hd : cfg.dtb = some (some f)) :
    k230_machine_init cfg = .ok (mkInitResult cfg [Event.loadDtb] f true) := by
  unfold k230_machine_init k230_soc_instance_init
  rw [if_neg (by omega), hd]

lemma machine_init_dtb_fail (cfg : MachineConfig) (h2 : cfg.smpCpus ≤ 2)
    (hd : cfg.dtb = some none) :
    k230_machine_init cfg =
      .fatal (socInitEvents cfg.smpCpus ++ [Event.realizeSoc] ++
              [Event.createRam (cfg.ramSize % 2 ^ 32)])
        "load_device_tree() failed" := by
  unfold k230_machine_init k230_soc_instance_init
  rw [if_neg (by omega), hd]

lemma runStub_zero (m : Nat) : runStub m 0 =
    ⟨0x91200000,
     [0,0,0,0,0,0,0,0,0,0,0,0,0,0,0,0,
      0,0,0,0,0,0,0,0,0,0,0,0,0,0,0,0], 0⟩ := rfl

lemma runStub_one (m : Nat) : runStub m 1 =
    ⟨0x91200004,
     [0,0,0,0,0,0x91200000,0,0,0,0,0,0,0,0,0,0,
      0,0,0,0,0,0,0,0,0,0,0,0,0,0,0,0], 0⟩ := by
  show stepStub m reset_vec (k230_memmap K230Dev.BOOTROM).base (runStub m 0) = _
  rw [memmap_BOOTROM_base, runStub_zero]
  exact rfl

lemma runStub_two (m : Nat) : runStub m 2 =
    ⟨0x91200008,
     [0,0,0,0,0,0x91200024,0,0,0,0,0,0,0,0,0,0,
      0,0,0,0,0,0,0,0,0,0,0,0,0,0,0,0], 0⟩ := by
  show stepStub m reset_vec (k230_memmap K230Dev.BOOTROM).base (runStub m 1) = _
  rw [memmap_BOOTROM_base, runStub_one]
  exact rfl

lemma runStub_three (m : Nat) : runStub m 3 =
    ⟨0x9120000C,
     [0,0,0,0,0,0x91200024,0,0,0,0,0,0,0,0,0,0,
      0,0,0,0,0,0,0,0,0,0,0,0,0,0,0,0], 0x91200024⟩ := by
  show stepStub m reset_vec (k230_memmap K230Dev.BOOTROM).base (runStub m 2) = _
  rw [memmap_BOOTROM_base, runStub_two]
  exact rfl

lemma runStub_four (m : Nat) : runStub m 4 =
    ⟨0x91200010,
     [0,0,0,0,0,0x91200024,0,0,0,0,m,0,0,0,0,0,
      0,0,0,0,0,0,0,0,0,0,0,0,0,0,0,0], 0x91200024⟩ := by
  show stepStub m reset_vec (k230_memmap K230Dev.BOOTROM).base (runStub m 3) = _
  rw [memmap_BOOTROM_base, runStub_three]
  exact rfl

end K230

namespace K230

lemma stepStub_beq (m : Nat) (rom : List Nat) (base p mt : Nat)
    (regs : List Nat) (w : Nat)
    (hge : ¬ p < base) (hw : fetchWord rom (p - base) = some w)
    (hop : opcodeOf w = 0x63) (hf3 : funct3Of w = 0) :
    stepStub m rom base ⟨p, regs, mt⟩ =
      if getReg regs (rs1Of w) = getReg regs (rs2Of w) then
        ⟨(p + immB64 w) % 2 ^ 64, regs, mt⟩
      else ⟨(p + 4) % 2 ^ 64, regs, mt⟩ := by
  unfold stepStub
  rw [if_neg hge, hw]
  simp only [hop, hf3]
  norm_num

lemma stepStub_jal (m : Nat) (rom : List Nat) (base p mt : Nat)
    (regs : List Nat) (w : Nat)
    (hge : ¬ p < base) (hw : fetchWord rom (p - base) = some w)
    (hop : opcodeOf w = 0x6F) :
    stepStub m rom base ⟨p, regs, mt⟩ =
      ⟨(p + immJ64 w) % 2 ^ 64,
       setReg regs (rdOf w) ((p + 4) % 2 ^ 64), mt⟩ := by
  unfold stepStub
  rw [if_neg hge, hw]
  simp only [hop]
  norm_num

lemma runStub_five_ne (m : Nat) (hm : m ≠ 0) : runStub m 5 =
    ⟨0x91200014,
     [0,0,0,0,0,0x91200024,0,0,0,0,m,0,0,0,0,0,
      0,0,0,0,0,0,0,0,0,0,0,0,0,0,0,0], 0x91200024⟩ := by
  show stepStub m reset_vec (k230_memmap K230Dev.BOOTROM).base (runStub m 4) = _
  rw [memmap_BOOTROM_base, runStub_four,
      stepStub_beq m reset_vec 0x91200000 0x91200010 0x91200024 _ 0x00050463
        (by norm_num) rfl rfl rfl]
  rw [if_neg (by simpa [getReg] using hm)]
  norm_num

lemma stub_spin (m : Nat) (hm : m ≠ 0) (k : Nat) :
    runStub m (5 + k) =
      ⟨0x91200014,
       [0,0,0,0,0,0x91200024,0,0,0,0,m,0,0,0,0,0,
        0,0,0,0,0,0,0,0,0,0,0,0,0,0,0,0], 0x91200024⟩ := by
  induction k with
  | zero => exact runStub_five_ne m hm
  | succ k ih =>
      show stepStub m reset_vec (k230_memmap K230Dev.BOOTROM).base
        (runStub m (5 + k)) = _
      rw [memmap_BOOTROM_base, ih,
          stepStub_jal m reset_vec 0x91200000 0x91200014 0x91200024 _ 0x0000006f
            (by norm_num) rfl rfl]
      norm_num [immJ64, setReg, rdOf]

end K230

namespace K230

/-- C5: during `create_fdt`, phandles are assigned as consecutive
positive integers in the fixed order clock nodes, per-processor
interrupt controllers, shared PLIC, with nothing else receiving one;
and every cross-reference uses a phandle assigned earlier. -/
theorem C5_phandle_assignment (n ram : Nat) (hn : n ≤ 2) :
    phandleAssignments (createFdtBody n ram) =
      [(NodePath.def50mhz, 1), (NodePath.rtcclk, 2)] ++
      (List.range n).map (fun i => (NodePath.cpuIntc i, 3 + i)) ++
      [(NodePath.plic (k230_memmap K230Dev.PLIC).base, 3 + n)] ∧
    forwardResolved (createFdtBody n ram) [] = true := by
  have hscrub : ∀ nc : Nat, nc ≤ 2 →
      forwardResolved (createFdtBody nc ram) [] = true := by
    intro nc hnc
    interval_cases nc
    · rw [← forwardResolved_scrub]
      have h0 : (createFdtBody 0 ram).map scrubOp =
          (createFdtBody 0 0).map scrubOp := rfl
      rw [h0]; decide
    · rw [← forwardResolved_scrub]
      have h1 : (createFdtBody 1 ram).map scrubOp =
          (createFdtBody 1 0).map scrubOp := rfl
      rw [h1]; decide
    · rw [← forwardResolved_scrub]
      have h2 : (createFdtBody 2 ram).map scrubOp =
          (createFdtBody 2 0).map scrubOp := rfl
      rw [h2]; decide
  refine ⟨?_, hscrub n hn⟩
  interval_cases n
  · rfl
  · rfl
  · rfl

end K230

namespace K230

/-- C5 witness: the theorem applied at two processors and the default
RAM size. -/
theorem C5_phandle_assignment_witness :
    (2 : Nat) ≤ 2 ∧
    phandleAssignments (createFdtBody 2 0x80000000) =
      [(NodePath.def50mhz, 1), (NodePath.rtcclk, 2)] ++
      (List.range 2).map (fun i => (NodePath.cpuIntc i, 3 + i)) ++
      [(NodePath.plic (k230_memmap K230Dev.PLIC).base, 3 + 2)] :=
  ⟨by decide, (C5_phandle_assignment 2 0x80000000 (by decide)).1⟩

/-- C6: serial port `i` uses PLIC source `K230_UART0_IRQ + i` both in
the wiring of `k230_soc_realize` and in the document's serial node;
the two GPIO banks take contiguous back-to-back blocks of
`K230_GPIO_IRQS` sources from `K230_GPIO0_IRQ0`, bank 0 lower. -/
theorem C6_uart_gpio_sources (n i ram : Nat) (hn : n ≤ 2) (hi : i < 5) :
    (IrqConn.mk (.uart i) 0 (K230_UART0_IRQ + i)) ∈ k230_soc_realize_irq_conns ∧
    getProp (createFdtBody n ram)
        (.serial (k230_memmap (uartDev i)).base) "interrupts" =
      some (.cell (K230_UART0_IRQ + i)) ∧
    sourcesOf .gpioBank0 =
      (List.range K230_GPIO_IRQS).map (fun j => K230_GPIO0_IRQ0 + j) ∧
    sourcesOf .gpioBank1 =
      (List.range K230_GPIO_IRQS).map
        (fun j => K230_GPIO0_IRQ0 + K230_GPIO_IRQS + j) ∧
    K230_GPIO0_IRQ0 + K230_GPIO_IRQS = 80 := by
  refine ⟨?_, ?_, by decide, by decide, by decide⟩
  · interval_cases i <;> decide
  · interval_cases n <;> interval_cases i <;> rfl

/-- C6 witness: the theorem applied at two processors, serial port 3,
the default RAM size. -/
theorem C6_uart_gpio_sources_witness :
    (2 : Nat) ≤ 2 ∧ (3 : Nat) < 5 ∧
    getProp (createFdtBody 2 0x80000000)
        (.serial (k230_memmap (uartDev 3)).base) "interrupts" =
      some (.cell (K230_UART0_IRQ + 3)) :=
  ⟨by decide, by decide,
   (C6_uart_gpio_sources 2 3 0x80000000 (by decide) (by decide)).2.1⟩

end K230

namespace K230

/-- C7: the memory node's `reg` is (DDR base high word, DDR base low
word, configured `ram_size` high word, configured `ram_size` low word)
as 32-bit cells, and its byte serialization is big-endian with the
high word first. -/
theorem C7_memory_node_reg (n ram : Nat) (hn : n ≤ 2) :
    getProp (createFdtBody n ram)
        (.memory (k230_memmap K230Dev.DDRC).base) "reg" =
      some (.cells
        [(k230_memmap K230Dev.DDRC).base >>> 32 % 2 ^ 32,
         (k230_memmap K230Dev.DDRC).base % 2 ^ 32,
         ram >>> 32 % 2 ^ 32, ram % 2 ^ 32]) ∧
    propBytes (.cells
        [(k230_memmap K230Dev.DDRC).base >>> 32 % 2 ^ 32,
         (k230_memmap K230Dev.DDRC).base % 2 ^ 32,
         ram >>> 32 % 2 ^ 32, ram % 2 ^ 32]) =
      be32 ((k230_memmap K230Dev.DDRC).base >>> 32 % 2 ^ 32) ++
      be32 ((k230_memmap K230Dev.DDRC).base % 2 ^ 32) ++
      be32 (ram >>> 32 % 2 ^ 32) ++ be32 (ram % 2 ^ 32) := by
  constructor
  · interval_cases n <;> rfl
  · simp [propBytes]

/-- C7 witness: the theorem applied at two processors and a RAM size
above the 32-bit range, where the high word is nonzero. -/
theorem C7_memory_node_reg_witness :
    (2 : Nat) ≤ 2 ∧
    getProp (createFdtBody 2 0x180000000)
        (.memory (k230_memmap K230Dev.DDRC).base) "reg" =
      some (.cells
        [(k230_memmap K230Dev.DDRC).base >>> 32 % 2 ^ 32,
         (k230_memmap K230Dev.DDRC).base % 2 ^ 32,
         0x180000000 >>> 32 % 2 ^ 32, 0x180000000 % 2 ^ 32]) :=
  ⟨by decide, (C7_memory_node_reg 2 0x180000000 (by decide)).1⟩

set_option maxRecDepth 2000 in
/-- C10: every PLIC source number the board wires
(`K230_UART0_IRQ + i` for the serial ports, the two GPIO blocks) or
advertises in the document is strictly below
`K230_PLIC_NUM_SOURCES = 208`, the source count given to
`sifive_plic_create`; the wired sources are exactly 0-4 and 16-143. -/
theorem C10_plic_source_bound :
    ((k230_soc_realize_irq_conns.map (fun c => c.plicSource)).all
        (fun s => decide (s < K230_PLIC_NUM_SOURCES))) = true ∧
    (∀ numHarts : Nat,
        (k230_plic_params numHarts).numSources = K230_PLIC_NUM_SOURCES) ∧
    K230_PLIC_NUM_SOURCES = 208 ∧
    ((List.range K230_PLIC_NUM_SOURCES).filter
        (fun s => (k230_soc_realize_irq_conns.map
          (fun c => c.plicSource)).contains s)) =
      (List.range K230_UART_IRQS).map (fun i => K230_UART0_IRQ + i) ++
      (List.range (2 * K230_GPIO_IRQS)).map (fun j => K230_GPIO0_IRQ0 + j) ∧
    ((interruptsAdvertised (createFdtBody 1 0x80000000) ++
      interruptsAdvertised (createFdtBody 2 0x80000000)).all
        (fun s => decide (s < K230_PLIC_NUM_SOURCES))) = true := by
  refine ⟨by decide, fun _ => rfl, rfl, by decide, by decide⟩

end K230

namespace K230

lemma getProp_memory_reg (n ram : Nat) (hn : n ≤ 2) :
    getProp (createFdtBody n ram)
        (.memory (k230_memmap K230Dev.DDRC).base) "reg" =
      some (.cells
        [(k230_memmap K230Dev.DDRC).base >>> 32 % 2 ^ 32,
         (k230_memmap K230Dev.DDRC).base % 2 ^ 32,
         ram >>> 32 % 2 ^ 32, ram % 2 ^ 32]) := by
  interval_cases n <;> rfl

/-- C2: requesting more than 2 processors is a fatal configuration
error raised by the cpu-count validation before any child device is
created (no events precede the `fatal`); for 1 or 2 processors the
validation passes and (with no pre-built document) setup completes. -/
theorem C2_cpu_count_validation (cfg : MachineConfig) :
    (cfg.smpCpus > 2 →
      k230_machine_init cfg =
        .fatal [] "K230 supports at most 2 CPUs (1xC908 + 1xC908V)") ∧
    ((cfg.smpCpus = 1 ∨ cfg.smpCpus = 2) →
      k230_soc_instance_init cfg.smpCpus = .ok (socInitEvents cfg.smpCpus) ∧
      (cfg.dtb = none →
        k230_machine_init cfg =
          .ok (mkInitResult cfg [Event.buildFdt]
                (createFdtBody cfg.smpCpus cfg.ramSize) false))) := by
  refine ⟨machine_init_count_fatal cfg, fun hn => ⟨?_, ?_⟩⟩
  · unfold k230_soc_instance_init
    rw [if_neg (by omega)]
  · exact fun hd => machine_init_build cfg (by omega) hd

/-- C2 witness: three processors are rejected with no preceding
events; two processors complete setup. -/
theorem C2_cpu_count_validation_witness :
    cfgThreeCpu.smpCpus > 2 ∧
    k230_machine_init cfgThreeCpu =
      .fatal [] "K230 supports at most 2 CPUs (1xC908 + 1xC908V)" ∧
    (cfgTwoCpu.smpCpus = 1 ∨ cfgTwoCpu.smpCpus = 2) ∧ cfgTwoCpu.dtb = none ∧
    k230_machine_init cfgTwoCpu =
      .ok (mkInitResult cfgTwoCpu [Event.buildFdt]
            (createFdtBody cfgTwoCpu.smpCpus cfgTwoCpu.ramSize) false) :=
  ⟨by decide, (C2_cpu_count_validation cfgThreeCpu).1 (by decide),
   Or.inr rfl, rfl,
   ((C2_cpu_count_validation cfgTwoCpu).2 (Or.inr rfl)).2 rfl⟩

end K230

namespace K230

lemma count_mkInitResult (cfg : MachineConfig) (fdtEvents : List Event)
    (f : Fdt) (b : Bool) (e : Event)
    (he : e = Event.loadDtb ∨ e = Event.buildFdt) :
    (mkInitResult cfg fdtEvents f b).events.count e = fdtEvents.count e := by
  rcases he with rfl | rfl <;>
    by_cases h2 : cfg.smpCpus = 2 <;>
    cases hk : cfg.kernelFilename <;>
    simp [mkInitResult, socInitEvents, h2, hk, List.count_append,
          List.count_cons, List.count_nil]

/-- C3: a caller-supplied document bypasses the synthesizer entirely
and is used verbatim; a failed load is fatal with no fallback to
synthesis; every successful machine-init performs exactly one of load
or build. -/
theorem C3_prebuilt_document (cfg : MachineConfig) (f : Fdt)
    (h2 : cfg.smpCpus ≤ 2) :
    (cfg.dtb = some (some f) →
      k230_machine_init cfg = .ok (mkInitResult cfg [Event.loadDtb] f true) ∧
      (mkInitResult cfg [Event.loadDtb] f true).fdt = f ∧
      (mkInitResult cfg [Event.loadDtb] f true).fdtFromDtbArg = true ∧
      (mkInitResult cfg [Event.loadDtb] f true).events.count Event.buildFdt = 0 ∧
      (mkInitResult cfg [Event.loadDtb] f true).events.count Event.loadDtb = 1) ∧
    (cfg.dtb = some none →
      k230_machine_init cfg =
        .fatal (socInitEvents cfg.smpCpus ++ [Event.realizeSoc] ++
                [Event.createRam (cfg.ramSize % 2 ^ 32)])
          "load_device_tree() failed") ∧
    (∀ r, k230_machine_init cfg = Outcome.ok r →
      r.events.count Event.loadDtb + r.events.count Event.buildFdt = 1) := by
  refine ⟨?_, machine_init_dtb_fail cfg h2, ?_⟩
  · intro hd
    exact ⟨machine_init_load cfg f h2 hd, rfl, rfl,
           by rw [count_mkInitResult cfg _ f true _ (Or.inr rfl)]; rfl,
           by rw [count_mkInitResult cfg _ f true _ (Or.inl rfl)]; rfl⟩
  · intro r hr
    rcases hd : cfg.dtb with _ | lr
    · rw [machine_init_build cfg h2 hd] at hr
      injection hr with e
      subst e
      rw [count_mkInitResult _ _ _ _ _ (Or.inl rfl),
          count_mkInitResult _ _ _ _ _ (Or.inr rfl)]
      rfl
    · rcases lr with _ | g
      · rw [machine_init_dtb_fail cfg h2 hd] at hr
        exact absurd hr (by simp)
      · rw [machine_init_load cfg g h2 hd] at hr
        injection hr with e
        subst e
        rw [count_mkInitResult _ _ _ _ _ (Or.inl rfl),
            count_mkInitResult _ _ _ _ _ (Or.inr rfl)]
        rfl

/-- C3 witness: the theorem applied at a loading pre-built document
and at a failing one. -/
theorem C3_prebuilt_document_witness :
    cfgPrebuilt.smpCpus ≤ 2 ∧
    cfgPrebuilt.dtb = some (some [FdtOp.addNode .chosen]) ∧
    k230_machine_init cfgPrebuilt =
      .ok (mkInitResult cfgPrebuilt [Event.loadDtb]
            [FdtOp.addNode .chosen] true) ∧
    cfgDtbFail.smpCpus ≤ 2 ∧ cfgDtbFail.dtb = some none ∧
    k230_machine_init cfgDtbFail =
      .fatal (socInitEvents cfgDtbFail.smpCpus ++ [Event.realizeSoc] ++
              [Event.createRam (cfgDtbFail.ramSize % 2 ^ 32)])
        "load_device_tree() failed" :=
  ⟨by decide, by decide,
   ((C3_prebuilt_document cfgPrebuilt [FdtOp.addNode .chosen]
      (by decide)).1 (by decide)).1,
   by decide, by decide,
   (C3_prebuilt_document cfgDtbFail [] (by decide)).2.1 (by decide)⟩

end K230

namespace K230

/-- C4 (strict variant modelled from the spec, flexible variant from
the source): under the configuration flag, the strict variant rejects
any RAM size other than the fixed DDR size with a fatal error before
setup, while the flexible variant accepts any size and scales the
document's memory node to it. -/
theorem C4_ram_size_policy (cfg : MachineConfig)
    (h2 : cfg.smpCpus ≤ 2) (hd : cfg.dtb = none) :
    (strictRamSizeOk cfg.ramSize = false →
      k230_machine_init_variant true cfg =
        .fatal [] "RAM size mismatch with fixed hardware RAM size") ∧
    k230_machine_init_variant false cfg = k230_machine_init cfg ∧
    (∃ r, k230_machine_init_variant false cfg = Outcome.ok r ∧
      getProp r.fdt (.memory (k230_memmap K230Dev.DDRC).base) "reg" =
        some (.cells
          [(k230_memmap K230Dev.DDRC).base >>> 32 % 2 ^ 32,
           (k230_memmap K230Dev.DDRC).base % 2 ^ 32,
           cfg.ramSize >>> 32 % 2 ^ 32, cfg.ramSize % 2 ^ 32])) := by
  have hflex : k230_machine_init_variant false cfg = k230_machine_init cfg := by
    simp [k230_machine_init_variant]
  refine ⟨?_, hflex, ?_⟩
  · intro hs
    unfold k230_machine_init_variant
    rw [if_pos ⟨rfl, hs⟩]
  · rw [hflex, machine_init_build cfg h2 hd]
    exact ⟨_, rfl, getProp_memory_reg cfg.smpCpus cfg.ramSize h2⟩

/-- C4 witness: the theorem applied to a 1 GiB RAM size, which the
strict variant rejects and the flexible variant propagates into the
memory node. -/
theorem C4_ram_size_policy_witness :
    cfgOddRam.smpCpus ≤ 2 ∧ cfgOddRam.dtb = none ∧
    strictRamSizeOk cfgOddRam.ramSize = false ∧
    k230_machine_init_variant true cfgOddRam =
      .fatal [] "RAM size mismatch with fixed hardware RAM size" :=
  ⟨by decide, rfl, by decide,
   (C4_ram_size_policy cfgOddRam (by decide) rfl).1 (by decide)⟩

/-- C8: the synthesizer is deterministic: it is a pure function of the
processor count and the requested RAM size (the catalog is a fixed
table), so two machine-init runs whose configurations agree on those
inputs produce byte-identical documents. -/
theorem C8_synthesizer_deterministic (cfg1 cfg2 : MachineConfig)
    (hn : cfg1.smpCpus = cfg2.smpCpus) (hr : cfg1.ramSize = cfg2.ramSize) :
    create_fdt cfg1.smpCpus cfg1.ramSize =
      create_fdt cfg2.smpCpus cfg2.ramSize ∧
    (create_fdt cfg1.smpCpus cfg1.ramSize).map fdtBytes =
      (create_fdt cfg2.smpCpus cfg2.ramSize).map fdtBytes ∧
    (∀ r1 r2, cfg1.dtb = none → cfg2.dtb = none →
      k230_machine_init cfg1 = Outcome.ok r1 →
      k230_machine_init cfg2 = Outcome.ok r2 →
      fdtBytes r1.fdt = fdtBytes r2.fdt) := by
  refine ⟨by rw [hn, hr], by rw [hn, hr], ?_⟩
  intro r1 r2 hd1 hd2 h1 h2
  have hle1 : cfg1.smpCpus ≤ 2 := by
    by_contra hgt
    push_neg at hgt
    rw [machine_init_count_fatal cfg1 hgt] at h1
    exact absurd h1 (by simp)
  have hle2 : cfg2.smpCpus ≤ 2 := by
    by_contra hgt
    push_neg at hgt
    rw [machine_init_count_fatal cfg2 hgt] at h2
    exact absurd h2 (by simp)
  rw [machine_init_build cfg1 hle1 hd1] at h1
  rw [machine_init_build cfg2 hle2 hd2] at h2
  injection h1 with e1
  injection h2 with e2
  subst e1
  subst e2
  show fdtBytes (createFdtBody cfg1.smpCpus cfg1.ramSize) =
    fdtBytes (createFdtBody cfg2.smpCpus cfg2.ramSize)
  rw [hn, hr]

/-- C8 witness: two configurations that agree on processor count and
RAM size but differ in kernel choice yield the same document. -/
theorem C8_synthesizer_deterministic_witness :
    cfgTwoCpu.smpCpus = cfgTwoCpuKernel.smpCpus ∧
    cfgTwoCpu.ramSize = cfgTwoCpuKernel.ramSize ∧
    create_fdt cfgTwoCpu.smpCpus cfgTwoCpu.ramSize =
      create_fdt cfgTwoCpuKernel.smpCpus cfgTwoCpuKernel.ramSize :=
  ⟨rfl, rfl,
   (C8_synthesizer_deterministic cfgTwoCpu cfgTwoCpuKernel rfl rfl).1⟩

end K230

namespace K230

/-- C9: `k230_machine_init` stores `machine->ram_size` in a 32-bit
local, so the document load address is computed from
`ram_size mod 2^32`, while the synthesized document's memory node
carries the full configured size; the two agree exactly when
`ram_size < 2^32`. -/
theorem C9_mem_size_truncation (cfg : MachineConfig) (r : InitResult)
    (h : k230_machine_init cfg = Outcome.ok r) (hd : cfg.dtb = none) :
    r.memSizeVar = cfg.ramSize % 2 ^ 32 ∧
    r.fdtAddrMemSizeArg = cfg.ramSize % 2 ^ 32 ∧
    r.fdtLoadAddr =
      riscv_compute_fdt_addr (k230_memmap K230Dev.DDRC).base
        (cfg.ramSize % 2 ^ 32) r.fdt ∧
    getProp r.fdt (.memory (k230_memmap K230Dev.DDRC).base) "reg" =
      some (.cells
        [(k230_memmap K230Dev.DDRC).base >>> 32 % 2 ^ 32,
         (k230_memmap K230Dev.DDRC).base % 2 ^ 32,
         cfg.ramSize >>> 32 % 2 ^ 32, cfg.ramSize % 2 ^ 32]) ∧
    (r.fdtAddrMemSizeArg = cfg.ramSize ↔ cfg.ramSize < 2 ^ 32) := by
  have h2 : cfg.smpCpus ≤ 2 := by
    by_contra hgt
    push_neg at hgt
    rw [machine_init_count_fatal cfg hgt] at h
    exact absurd h (by simp)
  rw [machine_init_build cfg h2 hd] at h
  injection h with e
  subst e
  refine ⟨rfl, rfl, rfl, getProp_memory_reg cfg.smpCpus cfg.ramSize h2, ?_⟩
  show cfg.ramSize % 2 ^ 32 = cfg.ramSize ↔ cfg.ramSize < 2 ^ 32
  constructor
  · intro he
    have hlt : cfg.ramSize % 2 ^ 32 < 2 ^ 32 :=
      Nat.mod_lt _ (by norm_num)
    rw [he] at hlt
    exact hlt
  · exact Nat.mod_eq_of_lt

/-- C9 witness: the theorem applied at a 6 GiB RAM size, where the
truncated value differs from the configured one. -/
theorem C9_mem_size_truncation_witness :
    cfgBigRam.dtb = none ∧
    (mkInitResult cfgBigRam [Event.buildFdt]
        (createFdtBody cfgBigRam.smpCpus cfgBigRam.ramSize)
        false).fdtAddrMemSizeArg = cfgBigRam.ramSize % 2 ^ 32 ∧
    ¬ cfgBigRam.ramSize < 2 ^ 32 :=
  ⟨rfl,
   (C9_mem_size_truncation cfgBigRam _
     (machine_init_build cfgBigRam (by decide) rfl) rfl).2.1,
   by decide⟩

end K230

namespace K230

/-- C1 counterexample: the claim says that with no firmware image the
reset stub transfers hart 0 to address 0; but with no firmware present
the placed stub still takes hart 0 to the fixed address 0x8000000. -/
theorem C1_reset_stub_counterexample :
    (∃ r, k230_machine_init cfgNoFirmware = Outcome.ok r ∧
        r.resetVecWords = reset_vec ∧ r.resetVecBase = 0x91200000) ∧
    cfgNoFirmware.firmwarePresent = false ∧
    (runStub 0 8).pc = 0x8000000 ∧ ((runStub 0 8).pc = 0) = False ∧
    (runStub 0 9).pc = 0x8000000 := by
  exact ⟨⟨_, machine_init_build cfgNoFirmware (by decide) rfl, rfl, rfl⟩,
         rfl, by decide, by decide, by decide⟩

/-- C1 (amended): `k230_machine_init` always places at the BOOTROM
base 0x91200000 the fixed ten-word reset stub, which reads the running
hart's `mhartid` into `a0`, sends every hart with nonzero id into a
spin loop at 0x91200014, and transfers hart 0 to the fixed address
0x8000000 (`1 << 27`, the expected u-boot entry) regardless of whether
a firmware image is present; the firmware/kernel entry is communicated
only through the boot-ROM firmware-info record, not by the stub's
jump. -/
theorem C1_reset_stub_amended (cfg : MachineConfig) (m k : Nat)
    (hcpu : cfg.smpCpus ≤ 2) (hdtb : cfg.dtb ≠ some none) (hm : m ≠ 0) :
    (∃ r, k230_machine_init cfg = Outcome.ok r ∧
        r.resetVecBase = (k230_memmap K230Dev.BOOTROM).base ∧
        r.resetVecBase = 0x91200000 ∧
        r.resetVecWords = reset_vec ∧
        r.resetVecBytes = reset_vec.flatMap le32) ∧
    getReg (runStub m 4).regs 10 = m ∧
    (runStub m (5 + k)).pc = 0x91200014 ∧
    stepStub m reset_vec (k230_memmap K230Dev.BOOTROM).base
      (runStub m (5 + k)) = runStub m (5 + k) ∧
    (runStub 0 8).pc = 0x8000000 ∧
    getReg (runStub 0 8).regs 5 = 0x8000000 := by
  refine ⟨?_, ?_, ?_, ?_, by decide, by decide⟩
  · rcases hd : cfg.dtb with _ | lr
    · exact ⟨_, machine_init_build cfg hcpu hd, rfl, rfl, rfl, rfl⟩
    · rcases lr with _ | f
      · exact absurd hd hdtb
      · exact ⟨_, machine_init_load cfg f hcpu hd, rfl, rfl, rfl, rfl⟩
  · rw [runStub_four]
    rfl
  · rw [stub_spin m hm k]
  · rw [stub_spin m hm k, memmap_BOOTROM_base,
        stepStub_jal m reset_vec 0x91200000 0x91200014 0x91200024 _ 0x0000006f
          (by norm_num) rfl rfl]
    norm_num [immJ64, setReg, rdOf]

/-- C1 witness: the amended theorem applied at a two-processor
configuration and hart id 1. -/
theorem C1_reset_stub_witness :
    cfgTwoCpu.smpCpus ≤ 2 ∧ cfgTwoCpu.dtb ≠ some none ∧ (1 : Nat) ≠ 0 ∧
    (runStub 1 (5 + 0)).pc = 0x91200014 :=
  ⟨by decide, by decide, by decide,
   (C1_reset_stub_amended cfgTwoCpu 1 0 (by decide) (by decide)
     (by decide)).2.2.1⟩

end K230
